import Mathlib

/-!
# VideoLibrarySaaS — verification of the webhook reconciler, video registry and admin view

Shallow embedding of the route handlers of the repository:

* `src/app/api/webhooks/stripe/route.ts` — the Stripe webhook reconciler
  (`stripeWebhookPOST`);
* `src/app/api/videos/route.ts` — two parallel implementations of the video
  endpoints live in this file, a NextAuth+Prisma variant
  (`prismaVideosGET`, `prismaVideosPOST`) and a Supabase variant
  (`supabaseVideosGET`, `supabaseVideosPOST`), separated by a document marker;
* `src/SETUP_DATABASE.sql` — the row-level-security policies
  (`profilesVisibleTo`) and the global unique constraint on `videos.youtube_url`.

Databases are lists of records; Prisma/Supabase calls become list operations;
the Stripe signature-verification primitive (`stripe.webhooks.constructEvent`)
is an abstract parameter returning `Option StripeEvent` (`none` = the primitive
threw, i.e. verification failed).
-/

namespace VideoSaaS

/-- A user/profile row of the subscription ledger: `role`,
`subscriptionStatus ∈ {"inactive","active","past_due"}`, and the Stripe ids
(`null`able columns are `Option`). -/
structure User where
  id : String
  email : String
  role : String
  subscriptionStatus : String
  stripeCustomerId : Option String
  stripeSubscriptionId : Option String
deriving Repr, DecidableEq

/-- A row of the videos table: owner, URL, optional title. -/
structure Video where
  id : String
  userId : String
  youtubeUrl : String
  title : Option String
deriving Repr, DecidableEq

/-- The fields of a Stripe event that the webhook handler reads, after the
`as Stripe.Checkout.Session` / `as Stripe.Subscription` / `as Stripe.Invoice`
casts: `session.metadata?.userId`, `session.subscription`, `session.customer`,
`subscription.id`, `subscription.status`, and the invoice's subscription
reference (already resolved to its id string, as the handler does for both the
string and the object form). -/
structure StripeEvent where
  type : String
  sessionMetadataUserId : Option String
  sessionSubscription : Option String
  sessionCustomer : Option String
  subscriptionId : String
  subscriptionStatus : String
  invoiceSubscriptionId : Option String
deriving Repr, DecidableEq

/-- JavaScript truthiness of a possibly-absent string: `undefined`/`null` and
`""` are falsy. -/
def jsTruthy : Option String → Bool
  | none => false
  | some s => if s = "" then false else true

/-- Embedding of `prisma.user.update({ where: { id: uid }, data })`: updates the unique row
with this id, or throws (`none`) when no such row exists. -/
def updateUser (users : List User) (uid : String) (f : User → User) :
    Option (List User) :=
  if users.any (fun u => u.id = uid) then
    some (users.map (fun u => if u.id = uid then f u else u))
  else
    none

/-- Embedding of `prisma.user.updateMany` keyed on `stripeSubscriptionId`:
updates every row whose `stripeSubscriptionId` equals the given id (a `NULL`
column never matches); never throws. -/
def updateManyBySubscriptionId (users : List User) (subId : String)
    (f : User → User) : List User :=
  users.map (fun u => if u.stripeSubscriptionId = some subId then f u else u)

/-- The `data` object of the `checkout.session.completed` branch:
`stripeCustomerId := session.customer`, `stripeSubscriptionId :=
session.subscription`, `subscriptionStatus := 'active'`. -/
def checkoutUpdate (e : StripeEvent) (u : User) : User :=
  { u with
    stripeCustomerId := e.sessionCustomer,
    stripeSubscriptionId := e.sessionSubscription,
    subscriptionStatus := "active" }

/-- The `data` object of the subscription/invoice branches: overwrite
`subscriptionStatus`. -/
def setStatus (status : String) (u : User) : User :=
  { u with subscriptionStatus := status }

/-- Body of a webhook response: `{ error: msg }` or `{ received: true }`. -/
inductive WebhookBody where
  | errorMsg (msg : String)
  | received
deriving Repr, DecidableEq

/-- Result of one webhook call: the users table after the call, the HTTP
status, and the response body. -/
structure WebhookResult where
  users : List User
  status : Nat
  body : WebhookBody
deriving Repr, DecidableEq

/-- The `POST` handler of `src/app/api/webhooks/stripe/route.ts`.
`constructEvent body sig secret` models `stripe.webhooks.constructEvent`
(`none` = verification threw). Order of the source: missing-signature check,
verification, then the `switch` on `event.type`; the surrounding
`try`/`catch` turns a thrown `prisma.user.update` (no matching row) into a
500 `"Webhook processing failed"` response with the store unchanged. -/
def stripeWebhookPOST (constructEvent : String → String → String → Option StripeEvent)
    (webhookSecret : String) (body : String) (signature : Option String)
    (users : List User) : WebhookResult :=
  match signature with
  | none => ⟨users, 400, .errorMsg "Missing stripe-signature header"⟩
  | some sig =>
    match constructEvent body sig webhookSecret with
    | none => ⟨users, 400, .errorMsg "Webhook signature verification failed"⟩
    | some event =>
      if event.type = "checkout.session.completed" then
        if jsTruthy event.sessionMetadataUserId ∧ jsTruthy event.sessionSubscription then
          match updateUser users (event.sessionMetadataUserId.getD "")
              (checkoutUpdate event) with
          | some users' => ⟨users', 200, .received⟩
          | none => ⟨users, 500, .errorMsg "Webhook processing failed"⟩
        else ⟨users, 200, .received⟩
      else if event.type = "customer.subscription.created" ∨
          event.type = "customer.subscription.updated" then
        let status := if event.subscriptionStatus = "active" then "active" else "inactive"
        ⟨updateManyBySubscriptionId users event.subscriptionId (setStatus status),
          200, .received⟩
      else if event.type = "customer.subscription.deleted" then
        ⟨updateManyBySubscriptionId users event.subscriptionId (setStatus "inactive"),
          200, .received⟩
      else if event.type = "invoice.payment_succeeded" then
        if jsTruthy event.invoiceSubscriptionId then
          ⟨updateManyBySubscriptionId users (event.invoiceSubscriptionId.getD "")
              (setStatus "active"), 200, .received⟩
        else ⟨users, 200, .received⟩
      else if event.type = "invoice.payment_failed" then
        if jsTruthy event.invoiceSubscriptionId then
          ⟨updateManyBySubscriptionId users (event.invoiceSubscriptionId.getD "")
              (setStatus "past_due"), 200, .received⟩
        else ⟨users, 200, .received⟩
      else
        ⟨users, 200, .received⟩

/-- A character matched by the JavaScript regex `.` (without the `s` flag):
anything but a line terminator. -/
def isDotChar (c : Char) : Bool :=
  !(c = '\n' || c = '\r' || c = Char.ofNat 0x2028 || c = Char.ofNat 0x2029)

/-- A character of the JavaScript class `[\w-]`. -/
def isWordOrDash (c : Char) : Bool :=
  c.isAlpha || c.isDigit || c = '_' || c = '-'

/-- Character-list prefix test (the `String` functions are over `.data` so
that concrete inputs evaluate). -/
def startsWithChars : List Char → List Char → Bool
  | _, [] => true
  | [], _ :: _ => false
  | c :: cs, p :: ps => c = p && startsWithChars cs ps

/-- Strip a mandatory `https?:\/\/` prefix; `none` when the scheme is absent. -/
def stripScheme (s : List Char) : Option (List Char) :=
  if startsWithChars s "https://".data then some (s.drop 8)
  else if startsWithChars s "http://".data then some (s.drop 7)
  else none

/-- Strip an optional `(https?:\/\/)?` prefix. -/
def stripSchemeOpt (s : List Char) : List Char :=
  match stripScheme s with
  | some r => r
  | none => s

/-- Strip an optional `(www\.)?` prefix. -/
def stripWww (s : List Char) : List Char :=
  if startsWithChars s "www.".data then s.drop 4 else s

/-- The first pattern of `validateYouTubeUrl`:
`/^(https?:\/\/)?(www\.)?(youtube\.com|youtu\.be)\/.+$/` — optional scheme,
optional `www.`, one of the two hosts, a slash, then a nonempty tail with no
line terminator (JS `.` never crosses a line terminator and `$` is
end-of-input). The alternatives of each optional group are prefix-disjoint
from what follows, so sequential stripping is equivalent to the regex. -/
def matchesHostPattern (url : String) : Bool :=
  let s2 := stripWww (stripSchemeOpt url.data)
  if startsWithChars s2 "youtube.com/".data then
    let rest := s2.drop 12
    !rest.isEmpty && rest.all isDotChar
  else if startsWithChars s2 "youtu.be/".data then
    let rest := s2.drop 9
    !rest.isEmpty && rest.all isDotChar
  else false

/-- The second pattern:
`/^https?:\/\/(www\.)?youtube\.com\/watch\?v=[\w-]+/` — unanchored at the end,
so it is a prefix test: mandatory scheme, optional `www.`,
`youtube.com/watch?v=`, then at least one `[\w-]` character. -/
def matchesWatchPattern (url : String) : Bool :=
  match stripScheme url.data with
  | none => false
  | some s1 =>
    let s2 := stripWww s1
    if startsWithChars s2 "youtube.com/watch?v=".data then
      match s2.drop 20 with
      | [] => false
      | c :: _ => isWordOrDash c
    else false

/-- The third pattern: `/^https?:\/\/(www\.)?youtu\.be\/[\w-]+/` — mandatory
scheme, optional `www.`, `youtu.be/`, then at least one `[\w-]` character. -/
def matchesShortPattern (url : String) : Bool :=
  match stripScheme url.data with
  | none => false
  | some s1 =>
    let s2 := stripWww s1
    if startsWithChars s2 "youtu.be/".data then
      match s2.drop 9 with
      | [] => false
      | c :: _ => isWordOrDash c
    else false

/-- The function `validateYouTubeUrl` of `src/app/api/videos/route.ts` (identical in both
variants): `patterns.some((pattern) => pattern.test(url))`. -/
def validateYouTubeUrl (url : String) : Bool :=
  matchesHostPattern url || matchesWatchPattern url || matchesShortPattern url

/-- JavaScript `title || null`: an absent or empty title is stored as `null`. -/
def jsOrNull (t : Option String) : Option String :=
  if jsTruthy t then t else none

/-- Body of a video-endpoint response: `{ error: msg }`, `{ videos }`,
`{ video }` or `{ success: true }`. -/
inductive VideosBody where
  | errorMsg (msg : String)
  | videoList (vs : List Video)
  | videoItem (v : Video)
  | successTrue
deriving Repr, DecidableEq

/-- Result of one video-endpoint call: the videos table after the call, the
HTTP status, and the response body. -/
structure VideosResult where
  videos : List Video
  status : Nat
  body : VideosBody
deriving Repr, DecidableEq

/-- The `GET` handler of the NextAuth+Prisma variant of
`src/app/api/videos/route.ts` (first document of the file): 401 without a
session, 403 unless the caller's `subscriptionStatus` is `"active"`, then the
caller's own videos. The session is the outcome of `getServerSession`
(`some uid` = `session.user.id`). Ordering by `createdAt` is presentation
only and not modelled. -/
def prismaVideosGET (session : Option String) (users : List User)
    (videos : List Video) : VideosResult :=
  match session with
  | none => ⟨videos, 401, .errorMsg "Unauthorized"⟩
  | some uid =>
    match users.find? (fun u => u.id = uid) with
    | none => ⟨videos, 403, .errorMsg "Active subscription required"⟩
    | some u =>
      if u.subscriptionStatus = "active" then
        ⟨videos, 200, .videoList (videos.filter (fun v => v.userId = uid))⟩
      else
        ⟨videos, 403, .errorMsg "Active subscription required"⟩

/-- Modelled from the spec: the Prisma schema (`prisma/schema.prisma`) is not
under `src/`; spec §6 gives the persisted layout a "global-unique constraint
on url", so `prisma.video.create` throws (`none`) when the URL is already
present anywhere in the table, and the handler's `catch` turns that into a
500 response. -/
def prismaVideoCreate (videos : List Video) (v : Video) : Option (List Video) :=
  if videos.any (fun w => w.youtubeUrl = v.youtubeUrl) then none
  else some (videos ++ [v])

/-- The `POST` handler of the NextAuth+Prisma variant of
`src/app/api/videos/route.ts`: auth (401), active subscription (403),
`youtube_url` present (400), URL shape (400), then a duplicate check scoped to
the **caller's own rows** (`findFirst` on `youtubeUrl` and `userId`, 400),
then `create`. `freshId` stands for the id Prisma generates for the new row. -/
def prismaVideosPOST (session : Option String) (users : List User)
    (videos : List Video) (youtube_url : Option String) (title : Option String)
    (freshId : String) : VideosResult :=
  match session with
  | none => ⟨videos, 401, .errorMsg "Unauthorized"⟩
  | some uid =>
    match users.find? (fun u => u.id = uid) with
    | none => ⟨videos, 403, .errorMsg "Active subscription required"⟩
    | some u =>
      if u.subscriptionStatus = "active" then
        if jsTruthy youtube_url then
          let url := youtube_url.getD ""
          if validateYouTubeUrl url then
            if videos.any (fun v => v.youtubeUrl = url ∧ v.userId = uid) then
              ⟨videos, 400, .errorMsg "Video already exists"⟩
            else
              match prismaVideoCreate videos ⟨freshId, uid, url, jsOrNull title⟩ with
              | some videos' => ⟨videos', 200, .videoItem ⟨freshId, uid, url, jsOrNull title⟩⟩
              | none => ⟨videos, 500, .errorMsg "Failed to add video"⟩
          else ⟨videos, 400, .errorMsg "Invalid YouTube URL"⟩
        else ⟨videos, 400, .errorMsg "YouTube URL is required"⟩
      else ⟨videos, 403, .errorMsg "Active subscription required"⟩

/-- Remove the first occurrence of `pat` from `s` (character lists). -/
def removeFirstOcc : List Char → List Char → List Char
  | [], _ => []
  | c :: cs, pat =>
    if startsWithChars (c :: cs) pat then (c :: cs).drop pat.length
    else c :: removeFirstOcc cs pat

/-- JavaScript `s.replace(pat, '')` with a string pattern: remove the first
occurrence of `pat`, if any. -/
def replaceFirst (s pat : String) : String :=
  ⟨removeFirstOcc s.data pat.data⟩

/-- The `GET` handler of the Supabase variant of
`src/app/api/videos/route.ts` (second document of the file): 401 without an
`authorization` header or when the token resolves to no user, then the
caller's own videos — **no subscription check**. `getUser` models
`supabase.auth.getUser`. -/
def supabaseVideosGET (authHeader : Option String)
    (getUser : String → Option String) (videos : List Video) : VideosResult :=
  match authHeader with
  | none => ⟨videos, 401, .errorMsg "Unauthorized"⟩
  | some h =>
    match getUser (replaceFirst h "Bearer ") with
    | none => ⟨videos, 401, .errorMsg "Unauthorized"⟩
    | some uid => ⟨videos, 200, .videoList (videos.filter (fun v => v.userId = uid))⟩

/-- Embedding of `supabase.from('videos').insert(...)` against the schema of
`src/SETUP_DATABASE.sql`, whose `youtube_url` column is `UNIQUE` across the
whole table: the insert errors (`none`) on a URL already present anywhere. -/
def supabaseVideoInsert (videos : List Video) (v : Video) : Option (List Video) :=
  if videos.any (fun w => w.youtubeUrl = v.youtubeUrl) then none
  else some (videos ++ [v])

/-- The `POST` handler of the Supabase variant of
`src/app/api/videos/route.ts`: auth (401), active subscription from the
`profiles` row (403), `youtube_url` present (400), URL shape (400), then a
duplicate check across the **whole table** (`eq('youtube_url', ...)` with no
user filter, 409), then `insert` (201). -/
def supabaseVideosPOST (authHeader : Option String)
    (getUser : String → Option String) (users : List User)
    (videos : List Video) (youtube_url : Option String) (title : Option String)
    (freshId : String) : VideosResult :=
  match authHeader with
  | none => ⟨videos, 401, .errorMsg "Unauthorized"⟩
  | some h =>
    match getUser (replaceFirst h "Bearer ") with
    | none => ⟨videos, 401, .errorMsg "Unauthorized"⟩
    | some uid =>
      match users.find? (fun u => u.id = uid) with
      | none => ⟨videos, 403, .errorMsg "Active subscription required"⟩
      | some profile =>
        if profile.subscriptionStatus = "active" then
          if jsTruthy youtube_url then
            let url := youtube_url.getD ""
            if validateYouTubeUrl url then
              if videos.any (fun v => v.youtubeUrl = url) then
                ⟨videos, 409, .errorMsg "This video URL has already been added"⟩
              else
                match supabaseVideoInsert videos ⟨freshId, uid, url, jsOrNull title⟩ with
                | some videos' => ⟨videos', 201, .videoItem ⟨freshId, uid, url, jsOrNull title⟩⟩
                | none => ⟨videos, 500, .errorMsg "Failed to add video"⟩
            else ⟨videos, 400, .errorMsg "Invalid YouTube URL"⟩
          else ⟨videos, 400, .errorMsg "YouTube URL is required"⟩
        else ⟨videos, 403, .errorMsg "Active subscription required"⟩

/-- Holds when the store has an admin row with this id — the `EXISTS`
subquery of the "Admins can view all profiles" policy in
`src/SETUP_DATABASE.sql`. -/
def isAdminIn (users : List User) (uid : String) : Bool :=
  users.any (fun u => u.id = uid ∧ u.role = "admin")

/-- The profile rows a `SELECT` by the authenticated caller `uid` can return
under the row-level-security policies of `src/SETUP_DATABASE.sql`: the
caller's own row ("Users can view own profile") or, when the caller's stored
role is admin, every row ("Admins can view all profiles"); RLS policies of
the same command are disjunctive. -/
def profilesVisibleTo (users : List User) (uid : String) : List User :=
  users.filter (fun p => p.id = uid ∨ isAdminIn users uid)

/-- Result of the admin listing call: HTTP status and the returned rows. -/
structure AdminResult where
  status : Nat
  rows : List User
deriving Repr, DecidableEq

/-- Modelled from the spec: the server-side admin listing route
(`/api/admin/users`) is not under `src/` — only its client caller
(`AdminPage`) and the RLS policies are. Per spec §4.3/§6, the handler returns
the full Account+SubscriptionRecord projection only when the **server-stored**
role of the caller is admin; any other caller gets AuthorizationDenied (403)
and no rows, and an unauthenticated caller gets 401. The role is read from
the server store, never from client input. -/
def adminListUsers (callerId : Option String) (users : List User) : AdminResult :=
  match callerId with
  | none => ⟨401, []⟩
  | some cid =>
    match users.find? (fun u => u.id = cid) with
    | none => ⟨403, []⟩
    | some caller =>
      if caller.role = "admin" then ⟨200, users⟩
      else ⟨403, []⟩

/-! ## Sample data used by closed witnesses and counterexamples -/

/-- A sample subscriber with no Stripe ids yet. -/
def alice : User :=
  ⟨"alice-id", "alice@example.com", "user", "inactive", none, none⟩

/-- A sample subscriber with recorded Stripe ids and an active subscription. -/
def bob : User :=
  ⟨"bob-id", "bob@example.com", "user", "active", some "cus_bob", some "sub_bob"⟩

/-- A sample `checkout.session.completed` event referencing `alice`. -/
def checkoutEv : StripeEvent :=
  ⟨"checkout.session.completed", some "alice-id", some "sub_alice",
    some "cus_alice", "", "", none⟩

/-- A sample `customer.subscription.updated` event reporting `past_due` for
`bob`'s subscription. -/
def subEvPastDue : StripeEvent :=
  ⟨"customer.subscription.updated", none, none, none, "sub_bob", "past_due", none⟩

/-- A sample `invoice.payment_failed` event referencing `bob`'s subscription. -/
def invoiceEvFailed : StripeEvent :=
  ⟨"invoice.payment_failed", none, none, none, "", "", some "sub_bob"⟩

/-- A sample event of a type the handler does not recognize. -/
def unknownEv : StripeEvent :=
  ⟨"charge.refunded", none, none, none, "", "", none⟩

/-- A sample `checkout.session.completed` event with no `userId` in its
metadata. -/
def checkoutEvNoUser : StripeEvent :=
  ⟨"checkout.session.completed", none, some "sub_x", some "cus_x", "", "", none⟩

/-! ## Helper lemmas -/

lemma checkoutUpdate_id (e : StripeEvent) (u : User) :
    (checkoutUpdate e u).id = u.id := rfl

lemma checkoutUpdate_idem (e : StripeEvent) (u : User) :
    checkoutUpdate e (checkoutUpdate e u) = checkoutUpdate e u := rfl

lemma updateUser_any_eq_some (users : List User) (uid : String) (f : User → User)
    (h : users.any (fun u => u.id = uid) = true) :
    updateUser users uid f =
      some (users.map (fun u => if u.id = uid then f u else u)) := by
  simp [updateUser, h]

lemma map_ite_update_idem (users : List User) (uid : String) (f : User → User)
    (hid : ∀ u, (f u).id = u.id) (hidem : ∀ u, f (f u) = f u) :
    ((users.map (fun u => if u.id = uid then f u else u)).map
        (fun u => if u.id = uid then f u else u)) =
      users.map (fun u => if u.id = uid then f u else u) := by
  induction users with
  | nil => rfl
  | cons v vs ih =>
    simp only [List.map_cons, List.cons.injEq]
    refine ⟨?_, ih⟩
    by_cases h : v.id = uid
    · rw [if_pos h, if_pos (by rw [hid v]; exact h), hidem v]
    · rw [if_neg h, if_neg h]

lemma any_id_map_update (users : List User) (uid : String) (f : User → User)
    (hid : ∀ u, (f u).id = u.id) :
    ((users.map (fun u => if u.id = uid then f u else u)).any
        (fun u => u.id = uid)) =
      users.any (fun u => u.id = uid) := by
  induction users with
  | nil => rfl
  | cons v vs ih =>
    simp only [List.map_cons, List.any_cons, ih]
    congr 1
    by_cases h : v.id = uid
    · rw [if_pos h]; simp [hid v, h]
    · rw [if_neg h]

lemma updateMany_setStatus_matching (users : List User) (subId status : String) :
    ∀ u ∈ updateManyBySubscriptionId users subId (setStatus status),
      u.stripeSubscriptionId = some subId → u.subscriptionStatus = status := by
  intro u hu hmatch
  simp only [updateManyBySubscriptionId] at hu
  rcases List.mem_map.mp hu with ⟨v, hv, rfl⟩
  by_cases h : v.stripeSubscriptionId = some subId
  · simp [h, setStatus]
  · rw [if_neg h] at hmatch ⊢
    exact absurd hmatch h

/-! ## Claims about the webhook reconciler -/

/-- C1: a webhook request with an absent `stripe-signature` header, or whose
body fails cryptographic verification against the server-held secret, gets a
400 response, leaves every user row unchanged, and the response body is one of
two fixed literal messages — carrying neither the verification secret nor the
verification failure detail (those go only to the server log). -/
theorem webhook_signature_failure_no_mutation
    (constructEvent : String → String → String → Option StripeEvent)
    (webhookSecret body : String) (signature : Option String)
    (users : List User)
    (h : signature = none ∨
      ∃ sig, signature = some sig ∧ constructEvent body sig webhookSecret = none) :
    (stripeWebhookPOST constructEvent webhookSecret body signature users).users = users ∧
    (stripeWebhookPOST constructEvent webhookSecret body signature users).status = 400 ∧
    ((stripeWebhookPOST constructEvent webhookSecret body signature users).body =
        .errorMsg "Missing stripe-signature header" ∨
      (stripeWebhookPOST constructEvent webhookSecret body signature users).body =
        .errorMsg "Webhook signature verification failed") := by
  rcases h with h | ⟨sig, hsig, hver⟩
  · subst h
    exact ⟨rfl, rfl, Or.inl rfl⟩
  · subst hsig
    simp [stripeWebhookPOST, hver]

/-- Closed witness for C1: a concrete request whose signature fails
verification leaves a one-user store unchanged and yields a 400. -/
theorem webhook_signature_failure_no_mutation_witness :
    (stripeWebhookPOST (fun _ _ _ => none) "whsec_test" "payload"
        (some "bad-signature") [alice]).users = [alice] ∧
    (stripeWebhookPOST (fun _ _ _ => none) "whsec_test" "payload"
        (some "bad-signature") [alice]).status = 400 ∧
    ((stripeWebhookPOST (fun _ _ _ => none) "whsec_test" "payload"
        (some "bad-signature") [alice]).body =
        .errorMsg "Missing stripe-signature header" ∨
      (stripeWebhookPOST (fun _ _ _ => none) "whsec_test" "payload"
        (some "bad-signature") [alice]).body =
        .errorMsg "Webhook signature verification failed") :=
  webhook_signature_failure_no_mutation (fun _ _ _ => none) "whsec_test"
    "payload" (some "bad-signature") [alice]
    (Or.inr ⟨"bad-signature", rfl, rfl⟩)

/-- C2: a verified `checkout.session.completed` event that references an
existing user in its metadata and carries a subscription id sets that user's
`subscriptionStatus` to `"active"` and records the provider customer id and
subscription id; reprocessing the identical event from the resulting state
leaves the state unchanged (the transition is an idempotent overwrite). -/
theorem webhook_checkout_completed_activates_and_idempotent
    (constructEvent : String → String → String → Option StripeEvent)
    (webhookSecret body sig : String) (users : List User) (e : StripeEvent)
    (uid subRef : String)
    (hev : constructEvent body sig webhookSecret = some e)
    (htype : e.type = "checkout.session.completed")
    (huid : e.sessionMetadataUserId = some uid) (huidne : uid ≠ "")
    (hsub : e.sessionSubscription = some subRef) (hsubne : subRef ≠ "")
    (hmem : users.any (fun u => u.id = uid) = true) :
    (stripeWebhookPOST constructEvent webhookSecret body (some sig) users).status = 200 ∧
    (stripeWebhookPOST constructEvent webhookSecret body (some sig) users).users =
      users.map (fun u => if u.id = uid then checkoutUpdate e u else u) ∧
    (∀ u ∈ (stripeWebhookPOST constructEvent webhookSecret body (some sig) users).users,
      u.id = uid →
        u.subscriptionStatus = "active" ∧
        u.stripeCustomerId = e.sessionCustomer ∧
        u.stripeSubscriptionId = some subRef) ∧
    (stripeWebhookPOST constructEvent webhookSecret body (some sig)
        (stripeWebhookPOST constructEvent webhookSecret body (some sig) users).users).users =
      (stripeWebhookPOST constructEvent webhookSecret body (some sig) users).users := by
  have hrun : ∀ vs : List User, vs.any (fun u => u.id = uid) = true →
      stripeWebhookPOST constructEvent webhookSecret body (some sig) vs =
        ⟨vs.map (fun u => if u.id = uid then checkoutUpdate e u else u), 200, .received⟩ := by
    intro vs hvs
    simp [stripeWebhookPOST, hev, htype, huid, hsub, jsTruthy, huidne, hsubne,
      updateUser_any_eq_some vs uid (checkoutUpdate e) hvs]
  have h1 := hrun users hmem
  refine ⟨by rw [h1], by rw [h1], ?_, ?_⟩
  · rw [h1]
    intro u hu huideq
    rcases List.mem_map.mp hu with ⟨v, hv, rfl⟩
    by_cases h : v.id = uid
    · rw [if_pos h]
      exact ⟨rfl, rfl, by simp [checkoutUpdate, hsub]⟩
    · rw [if_neg h] at huideq
      exact absurd huideq h
  · have hmem2 : ((users.map (fun u => if u.id = uid then checkoutUpdate e u else u)).any
        (fun u => u.id = uid)) = true := by
      rw [any_id_map_update users uid (checkoutUpdate e) (checkoutUpdate_id e)]
      exact hmem
    rw [h1]
    rw [hrun _ hmem2]
    exact map_ite_update_idem users uid (checkoutUpdate e)
      (checkoutUpdate_id e) (checkoutUpdate_idem e)

/-- Closed witness for C2: processing a concrete valid checkout event for
`alice` activates her and records the Stripe ids, and a second run is a
no-op. -/
theorem webhook_checkout_completed_activates_and_idempotent_witness :
    (stripeWebhookPOST (fun _ _ _ => some checkoutEv) "whsec_test" "payload"
        (some "sig") [alice]).users =
      [⟨"alice-id", "alice@example.com", "user", "active",
        some "cus_alice", some "sub_alice"⟩] ∧
    (stripeWebhookPOST (fun _ _ _ => some checkoutEv) "whsec_test" "payload"
        (some "sig")
        (stripeWebhookPOST (fun _ _ _ => some checkoutEv) "whsec_test" "payload"
          (some "sig") [alice]).users).users =
      (stripeWebhookPOST (fun _ _ _ => some checkoutEv) "whsec_test" "payload"
        (some "sig") [alice]).users := by
  have h := webhook_checkout_completed_activates_and_idempotent
    (fun _ _ _ => some checkoutEv) "whsec_test" "payload" "sig" [alice]
    checkoutEv "alice-id" "sub_alice" rfl rfl rfl (by decide) rfl (by decide)
    (by decide)
  refine ⟨?_, h.2.2.2⟩
  rw [h.2.1]
  decide

/-- C3: for a verified `customer.subscription.created` or
`customer.subscription.updated` event, every user whose
`stripeSubscriptionId` matches the event's subscription id gets status
`"active"` exactly when the provider-reported status is `"active"` and
`"inactive"` for every other reported status (`"past_due"` included); for a
verified `customer.subscription.deleted` event the matching users get
`"inactive"`. -/
theorem webhook_subscription_lifecycle
    (constructEvent : String → String → String → Option StripeEvent)
    (webhookSecret body sig : String) (users : List User) (e : StripeEvent)
    (hev : constructEvent body sig webhookSecret = some e) :
    ((e.type = "customer.subscription.created" ∨
        e.type = "customer.subscription.updated") →
      (stripeWebhookPOST constructEvent webhookSecret body (some sig) users).users =
        updateManyBySubscriptionId users e.subscriptionId
          (setStatus (if e.subscriptionStatus = "active" then "active" else "inactive")) ∧
      ∀ u ∈ (stripeWebhookPOST constructEvent webhookSecret body (some sig) users).users,
        u.stripeSubscriptionId = some e.subscriptionId →
          u.subscriptionStatus =
            (if e.subscriptionStatus = "active" then "active" else "inactive")) ∧
    (e.type = "customer.subscription.deleted" →
      (stripeWebhookPOST constructEvent webhookSecret body (some sig) users).users =
        updateManyBySubscriptionId users e.subscriptionId (setStatus "inactive") ∧
      ∀ u ∈ (stripeWebhookPOST constructEvent webhookSecret body (some sig) users).users,
        u.stripeSubscriptionId = some e.subscriptionId →
          u.subscriptionStatus = "inactive") := by
  constructor
  · intro htype
    have hrun : stripeWebhookPOST constructEvent webhookSecret body (some sig) users =
        ⟨updateManyBySubscriptionId users e.subscriptionId
            (setStatus (if e.subscriptionStatus = "active" then "active" else "inactive")),
          200, .received⟩ := by
      rcases htype with h | h <;> simp [stripeWebhookPOST, hev, h]
    rw [hrun]
    exact ⟨rfl, updateMany_setStatus_matching users e.subscriptionId _⟩
  · intro htype
    have hrun : stripeWebhookPOST constructEvent webhookSecret body (some sig) users =
        ⟨updateManyBySubscriptionId users e.subscriptionId (setStatus "inactive"),
          200, .received⟩ := by
      simp [stripeWebhookPOST, hev, htype]
    rw [hrun]
    exact ⟨rfl, updateMany_setStatus_matching users e.subscriptionId _⟩

/-- Closed witness for C3: a concrete `customer.subscription.updated` event
reporting `past_due` flips `bob` (who matches the subscription id) to
`inactive`. -/
theorem webhook_subscription_lifecycle_witness :
    (stripeWebhookPOST (fun _ _ _ => some subEvPastDue) "whsec_test" "payload"
        (some "sig") [bob]).users =
      [⟨"bob-id", "bob@example.com", "user", "inactive",
        some "cus_bob", some "sub_bob"⟩] := by
  have h := (webhook_subscription_lifecycle (fun _ _ _ => some subEvPastDue)
    "whsec_test" "payload" "sig" [bob] subEvPastDue rfl).1 (Or.inr rfl)
  rw [h.1]
  decide

/-- C8: for a verified invoice payment event that carries a subscription
reference, `invoice.payment_succeeded` sets every matching user's status to
`"active"` and `invoice.payment_failed` sets it to `"past_due"`. -/
theorem webhook_invoice_payment_events
    (constructEvent : String → String → String → Option StripeEvent)
    (webhookSecret body sig : String) (users : List User) (e : StripeEvent)
    (sid : String)
    (hev : constructEvent body sig webhookSecret = some e)
    (href : e.invoiceSubscriptionId = some sid) (hsidne : sid ≠ "") :
    (e.type = "invoice.payment_succeeded" →
      (stripeWebhookPOST constructEvent webhookSecret body (some sig) users).users =
        updateManyBySubscriptionId users sid (setStatus "active") ∧
      ∀ u ∈ (stripeWebhookPOST constructEvent webhookSecret body (some sig) users).users,
        u.stripeSubscriptionId = some sid → u.subscriptionStatus = "active") ∧
    (e.type = "invoice.payment_failed" →
      (stripeWebhookPOST constructEvent webhookSecret body (some sig) users).users =
        updateManyBySubscriptionId users sid (setStatus "past_due") ∧
      ∀ u ∈ (stripeWebhookPOST constructEvent webhookSecret body (some sig) users).users,
        u.stripeSubscriptionId = some sid → u.subscriptionStatus = "past_due") := by
  constructor
  · intro htype
    have hrun : stripeWebhookPOST constructEvent webhookSecret body (some sig) users =
        ⟨updateManyBySubscriptionId users sid (setStatus "active"), 200, .received⟩ := by
      simp [stripeWebhookPOST, hev, htype, href, jsTruthy, hsidne]
    rw [hrun]
    exact ⟨rfl, updateMany_setStatus_matching users sid _⟩
  · intro htype
    have hrun : stripeWebhookPOST constructEvent webhookSecret body (some sig) users =
        ⟨updateManyBySubscriptionId users sid (setStatus "past_due"), 200, .received⟩ := by
      simp [stripeWebhookPOST, hev, htype, href, jsTruthy, hsidne]
    rw [hrun]
    exact ⟨rfl, updateMany_setStatus_matching users sid _⟩

/-- Closed witness for C8: a concrete `invoice.payment_failed` event marks
`bob` (who matches the referenced subscription) `past_due`. -/
theorem webhook_invoice_payment_events_witness :
    (stripeWebhookPOST (fun _ _ _ => some invoiceEvFailed) "whsec_test"
        "payload" (some "sig") [bob]).users =
      [⟨"bob-id", "bob@example.com", "user", "past_due",
        some "cus_bob", some "sub_bob"⟩] := by
  have h := (webhook_invoice_payment_events (fun _ _ _ => some invoiceEvFailed)
    "whsec_test" "payload" "sig" [bob] invoiceEvFailed "sub_bob" rfl rfl
    (by decide)).2 rfl
  rw [h.1]
  decide

/-- C9: a verified event whose type is none of the six recognized
subscription-lifecycle types mutates no user record and is still acknowledged
with a 200 `{ received: true }` response. -/
theorem webhook_unrecognized_type_noop
    (constructEvent : String → String → String → Option StripeEvent)
    (webhookSecret body sig : String) (users : List User) (e : StripeEvent)
    (hev : constructEvent body sig webhookSecret = some e)
    (htype : e.type ∉ ["checkout.session.completed",
      "customer.subscription.created", "customer.subscription.updated",
      "customer.subscription.deleted", "invoice.payment_succeeded",
      "invoice.payment_failed"]) :
    stripeWebhookPOST constructEvent webhookSecret body (some sig) users =
      ⟨users, 200, .received⟩ := by
  simp only [List.mem_cons, List.not_mem_nil, or_false, not_or] at htype
  obtain ⟨h1, h2, h3, h4, h5, h6⟩ := htype
  simp [stripeWebhookPOST, hev, h1, h2, h3, h4, h5, h6]

/-- Closed witness for C9: a concrete `charge.refunded` event leaves the store
untouched and is acknowledged. -/
theorem webhook_unrecognized_type_noop_witness :
    stripeWebhookPOST (fun _ _ _ => some unknownEv) "whsec_test" "payload"
        (some "sig") [alice, bob] =
      ⟨[alice, bob], 200, .received⟩ :=
  webhook_unrecognized_type_noop (fun _ _ _ => some unknownEv) "whsec_test"
    "payload" "sig" [alice, bob] unknownEv rfl (by decide)

/-- C10: a verified `checkout.session.completed` event that lacks a `userId`
in its metadata or lacks a subscription id performs no write and still
returns the 200 `{ received: true }` acknowledgment. -/
theorem webhook_checkout_missing_fields_noop
    (constructEvent : String → String → String → Option StripeEvent)
    (webhookSecret body sig : String) (users : List User) (e : StripeEvent)
    (hev : constructEvent body sig webhookSecret = some e)
    (htype : e.type = "checkout.session.completed")
    (hmiss : e.sessionMetadataUserId = none ∨ e.sessionSubscription = none) :
    stripeWebhookPOST constructEvent webhookSecret body (some sig) users =
      ⟨users, 200, .received⟩ := by
  rcases hmiss with h | h <;>
    simp [stripeWebhookPOST, hev, htype, h, jsTruthy]

/-- Closed witness for C10: a concrete checkout event with no metadata user id
changes nothing and is acknowledged. -/
theorem webhook_checkout_missing_fields_noop_witness :
    stripeWebhookPOST (fun _ _ _ => some checkoutEvNoUser) "whsec_test"
        "payload" (some "sig") [alice, bob] =
      ⟨[alice, bob], 200, .received⟩ :=
  webhook_checkout_missing_fields_noop (fun _ _ _ => some checkoutEvNoUser)
    "whsec_test" "payload" "sig" [alice, bob] checkoutEvNoUser rfl rfl
    (Or.inl rfl)

/-! ## Claims about the video registry -/

/-- A third sample subscriber, active, used as the owner of an existing
video. -/
def carol : User :=
  ⟨"carol-id", "carol@example.com", "user", "active", none, none⟩

/-- A sample stored video owned by `carol`. -/
def carolVideo : Video :=
  ⟨"vid-1", "carol-id", "https://youtu.be/abc123", none⟩

/-- Counterexample to C4 as stated: a caller whose subscription is inactive
submits the non-YouTube URL `https://vimeo.com/123`; the insertion is indeed
rejected, but with the subscription-authorization error (403
`"Active subscription required"`), not the ValidationFailed error (400
`"Invalid YouTube URL"`) — the subscription check runs before URL
validation. -/
theorem videos_post_invalid_url_counterexample :
    validateYouTubeUrl "https://vimeo.com/123" = false ∧
    alice.subscriptionStatus = "inactive" ∧
    prismaVideosPOST (some "alice-id") [alice] []
        (some "https://vimeo.com/123") none "vid-9" =
      ⟨[], 403, .errorMsg "Active subscription required"⟩ ∧
    (prismaVideosPOST (some "alice-id") [alice] []
        (some "https://vimeo.com/123") none "vid-9").body ≠
      .errorMsg "Invalid YouTube URL" := by
  decide

/-- C4 amended: an insertion request whose URL matches none of the YouTube
allow-list shapes never writes a row, on either handler variant and for every
subscription status; the failure surfaces as ValidationFailed
(400 `"Invalid YouTube URL"`) exactly when the caller's subscription is
active — for an inactive or past_due caller the subscription-authorization
check fires first (403). -/
theorem videos_post_invalid_url
    (users : List User) (videos : List Video) (uid url : String)
    (title : Option String) (freshId : String) (authHeader : Option String)
    (getUser : String → Option String)
    (hurl : validateYouTubeUrl url = false) :
    (prismaVideosPOST (some uid) users videos (some url) title freshId).videos = videos ∧
    (supabaseVideosPOST authHeader getUser users videos (some url) title freshId).videos = videos ∧
    (∀ u, users.find? (fun w => w.id = uid) = some u →
      u.subscriptionStatus = "active" → url ≠ "" →
      prismaVideosPOST (some uid) users videos (some url) title freshId =
        ⟨videos, 400, .errorMsg "Invalid YouTube URL"⟩) ∧
    (∀ hdr u, authHeader = some hdr →
      getUser (replaceFirst hdr "Bearer ") = some uid →
      users.find? (fun w => w.id = uid) = some u →
      u.subscriptionStatus = "active" → url ≠ "" →
      supabaseVideosPOST authHeader getUser users videos (some url) title freshId =
        ⟨videos, 400, .errorMsg "Invalid YouTube URL"⟩) := by
  refine ⟨?_, ?_, ?_, ?_⟩
  · simp only [prismaVideosPOST]
    cases hfind : users.find? (fun w => w.id = uid) with
    | none => rfl
    | some u =>
      by_cases hact : u.subscriptionStatus = "active"
      · by_cases hne : url = ""
        · simp [hact, hne, jsTruthy]
        · simp [hact, hne, jsTruthy, hurl]
      · simp [hact]
  · simp only [supabaseVideosPOST]
    cases authHeader with
    | none => rfl
    | some hdr =>
      cases hget : getUser (replaceFirst hdr "Bearer ") with
      | none => simp [hget]
      | some uid' =>
        cases hfind : users.find? (fun w => w.id = uid') with
        | none => simp [hget, hfind]
        | some u =>
          by_cases hact : u.subscriptionStatus = "active"
          · by_cases hne : url = ""
            · simp [hget, hfind, hact, hne, jsTruthy]
            · simp [hget, hfind, hact, hne, jsTruthy, hurl]
          · simp [hget, hfind, hact]
  · intro u hfind hact hne
    simp [prismaVideosPOST, hfind, hact, hne, jsTruthy, hurl]
  · intro hdr u hh hget hfind hact hne
    subst hh
    simp [supabaseVideosPOST, hget, hfind, hact, hne, jsTruthy, hurl]

/-- Closed witness for the amended C4: an active subscriber submitting the
vimeo URL gets the ValidationFailed response and nothing is written. -/
theorem videos_post_invalid_url_witness :
    validateYouTubeUrl "https://vimeo.com/123" = false ∧
    prismaVideosPOST (some "bob-id") [bob] []
        (some "https://vimeo.com/123") none "vid-9" =
      ⟨[], 400, .errorMsg "Invalid YouTube URL"⟩ := by
  have h := videos_post_invalid_url [bob] [] "bob-id" "https://vimeo.com/123"
    none "vid-9" (some "Bearer tok")
    (fun t => if t = "tok" then some "bob-id" else none) (by decide)
  exact ⟨by decide, h.2.2.1 bob (by decide) rfl (by decide)⟩

/-- Counterexample to C5 as stated: `carol` already stores
`https://youtu.be/abc123`; `bob` (a different, active account) inserts the
same URL through the Prisma-variant handler. Its duplicate check is scoped to
the caller's own rows, so the request passes it and the write is stopped only
by the table-level unique constraint, surfacing as a 500 Internal error — not
as the 409 ConflictDuplicate error and not as the handler's duplicate
message. -/
theorem videos_post_cross_account_duplicate_counterexample :
    carolVideo.userId = "carol-id" ∧
    prismaVideosPOST (some "bob-id") [bob, carol] [carolVideo]
        (some "https://youtu.be/abc123") none "vid-2" =
      ⟨[carolVideo], 500, .errorMsg "Failed to add video"⟩ ∧
    (prismaVideosPOST (some "bob-id") [bob, carol] [carolVideo]
        (some "https://youtu.be/abc123") none "vid-2").status ≠ 409 ∧
    (prismaVideosPOST (some "bob-id") [bob, carol] [carolVideo]
        (some "https://youtu.be/abc123") none "vid-2").body ≠
      .errorMsg "Video already exists" := by
  decide

/-- C5 amended: inserting a URL already present anywhere in the table writes
nothing on either handler variant; the Supabase-variant handler rejects any
such duplicate — by the caller's own account or a different one — with
ConflictDuplicate (409), while the Prisma-variant handler reports its
duplicate error only for the caller's own rows and surfaces a cross-account
duplicate as a 500 Internal error from the unique constraint. -/
theorem videos_post_duplicate_url
    (users : List User) (videos : List Video) (url : String)
    (title : Option String) (freshId : String) (authHeader : Option String)
    (getUser : String → Option String) (uid : String)
    (hdup : videos.any (fun v => v.youtubeUrl = url) = true)
    (hvalid : validateYouTubeUrl url = true) :
    (prismaVideosPOST (some uid) users videos (some url) title freshId).videos = videos ∧
    (supabaseVideosPOST authHeader getUser users videos (some url) title freshId).videos = videos ∧
    (∀ hdr u, authHeader = some hdr →
      getUser (replaceFirst hdr "Bearer ") = some uid →
      users.find? (fun w => w.id = uid) = some u →
      u.subscriptionStatus = "active" →
      supabaseVideosPOST authHeader getUser users videos (some url) title freshId =
        ⟨videos, 409, .errorMsg "This video URL has already been added"⟩) := by
  have hne : url ≠ "" := by
    intro h
    rw [h] at hvalid
    exact absurd hvalid (by decide)
  refine ⟨?_, ?_, ?_⟩
  · simp only [prismaVideosPOST]
    cases hfind : users.find? (fun w => w.id = uid) with
    | none => rfl
    | some u =>
      by_cases hact : u.subscriptionStatus = "active"
      · have hdupP : ∃ x ∈ videos, x.youtubeUrl = url := by simpa using hdup
        by_cases hown : ∃ x ∈ videos, x.youtubeUrl = url ∧ x.userId = uid
        · simp [hact, hne, jsTruthy, hvalid, hown]
        · simp [hact, hne, jsTruthy, hvalid, hown, prismaVideoCreate, hdupP]
      · simp [hact]
  · simp only [supabaseVideosPOST]
    cases authHeader with
    | none => rfl
    | some hdr =>
      cases hget : getUser (replaceFirst hdr "Bearer ") with
      | none => simp [hget]
      | some uid' =>
        cases hfind : users.find? (fun w => w.id = uid') with
        | none => simp [hget, hfind]
        | some u =>
          by_cases hact : u.subscriptionStatus = "active"
          · simp [hget, hfind, hact, hne, jsTruthy, hvalid, hdup]
          · simp [hget, hfind, hact]
  · intro hdr u hh hget hfind hact
    subst hh
    simp [supabaseVideosPOST, hget, hfind, hact, hne, jsTruthy, hvalid, hdup]

/-- Closed witness for the amended C5: `bob` inserting `carol`'s URL through
the Supabase-variant handler gets ConflictDuplicate (409) and the table is
unchanged. -/
theorem videos_post_duplicate_url_witness :
    supabaseVideosPOST (some "Bearer tok")
        (fun t => if t = "tok" then some "bob-id" else none)
        [bob, carol] [carolVideo] (some "https://youtu.be/abc123") none "vid-2" =
      ⟨[carolVideo], 409, .errorMsg "This video URL has already been added"⟩ := by
  have h := videos_post_duplicate_url [bob, carol] [carolVideo]
    "https://youtu.be/abc123" none "vid-2" (some "Bearer tok")
    (fun t => if t = "tok" then some "bob-id" else none) "bob-id"
    (by decide) (by decide)
  exact h.2.2 "Bearer tok" bob rfl (by decide) (by decide) rfl

/-- A sample stored video owned by `alice`, whose subscription is inactive. -/
def aliceVideo : Video :=
  ⟨"vid-3", "alice-id", "https://youtu.be/xyz987", none⟩

/-- Counterexample to C7 as stated: `alice` is authenticated but her
subscription status is `"inactive"`, yet the Supabase-variant `GET` handler —
which never consults the subscription status — answers 200 with her video
data instead of an authorization error. -/
theorem videos_get_without_subscription_counterexample :
    alice.subscriptionStatus = "inactive" ∧
    supabaseVideosGET (some "Bearer tok")
        (fun t => if t = "tok" then some "alice-id" else none) [aliceVideo] =
      ⟨[aliceVideo], 200, .videoList [aliceVideo]⟩ := by
  decide

/-- C7 amended: the Prisma-variant `GET` handler behaves as claimed — it
fails with 401 when unauthenticated and with 403 (no video data) when the
authenticated caller's subscription status is not `"active"`, and returns the
caller's videos only in the active case; the Supabase-variant `GET` handler
requires only authentication and returns the caller's videos for every
subscription status. -/
theorem videos_get_subscription_gate
    (users : List User) (videos : List Video) (uid : String)
    (authHeader : Option String) (getUser : String → Option String) :
    prismaVideosGET none users videos = ⟨videos, 401, .errorMsg "Unauthorized"⟩ ∧
    (∀ u, users.find? (fun w => w.id = uid) = some u →
      u.subscriptionStatus ≠ "active" →
      prismaVideosGET (some uid) users videos =
        ⟨videos, 403, .errorMsg "Active subscription required"⟩) ∧
    (∀ u, users.find? (fun w => w.id = uid) = some u →
      u.subscriptionStatus = "active" →
      prismaVideosGET (some uid) users videos =
        ⟨videos, 200, .videoList (videos.filter (fun v => v.userId = uid))⟩) ∧
    (∀ hdr, authHeader = some hdr →
      getUser (replaceFirst hdr "Bearer ") = some uid →
      supabaseVideosGET authHeader getUser videos =
        ⟨videos, 200, .videoList (videos.filter (fun v => v.userId = uid))⟩) := by
  refine ⟨rfl, ?_, ?_, ?_⟩
  · intro u hfind hact
    simp [prismaVideosGET, hfind, hact]
  · intro u hfind hact
    simp [prismaVideosGET, hfind, hact]
  · intro hdr hh hget
    subst hh
    simp [supabaseVideosGET, hget]

/-- Closed witness for the amended C7: authenticated `alice`, whose
subscription is inactive, gets 403 and no video data from the Prisma-variant
`GET` handler. -/
theorem videos_get_subscription_gate_witness :
    prismaVideosGET (some "alice-id") [alice] [aliceVideo] =
      ⟨[aliceVideo], 403, .errorMsg "Active subscription required"⟩ := by
  have h := videos_get_subscription_gate [alice] [aliceVideo] "alice-id"
    (some "Bearer tok") (fun t => if t = "tok" then some "alice-id" else none)
  exact h.2.1 alice (by decide) (by decide)

/-! ## Claim about the admin view -/

/-- An admin account used by the C6 witness. -/
def dana : User :=
  ⟨"dana-id", "dana@example.com", "admin", "active", none, none⟩

/-- C6: a caller whose stored account role is not admin gets
AuthorizationDenied (403) and zero rows from the admin listing endpoint —
whose decision reads the role from the server-side store, never from the
client — and, at the data-access layer, the RLS policies let a non-admin
`SELECT` on profiles return no row of any other account. -/
theorem admin_listing_denies_non_admin
    (users : List User) (cid : String)
    (hnot : isAdminIn users cid = false) :
    (adminListUsers (some cid) users).status = 403 ∧
    (adminListUsers (some cid) users).rows = [] ∧
    (∀ p ∈ profilesVisibleTo users cid, p.id = cid) := by
  have hvis : ∀ p ∈ profilesVisibleTo users cid, p.id = cid := by
    intro p hp
    simp only [profilesVisibleTo, List.mem_filter, decide_eq_true_eq] at hp
    rcases hp.2 with h | h
    · exact h
    · rw [hnot] at h
      cases h
  refine ⟨?_, ?_, hvis⟩ <;>
  · cases hfind : users.find? (fun u => u.id = cid) with
    | none => simp [adminListUsers, hfind]
    | some caller =>
      have hid : caller.id = cid := by
        have := List.find?_some hfind
        simpa using this
      have hmem : caller ∈ users := List.mem_of_find?_eq_some hfind
      have hrole : caller.role ≠ "admin" := by
        intro hr
        have : isAdminIn users cid = true := by
          simp only [isAdminIn, List.any_eq_true, decide_eq_true_eq]
          exact ⟨caller, hmem, hid, hr⟩
        rw [this] at hnot
        cases hnot
      simp [adminListUsers, hfind, hrole]

/-- Closed witness for C6: `alice` (role `"user"`) calling the admin listing
endpoint over a store that also holds the admin `dana` gets 403 and no
rows. -/
theorem admin_listing_denies_non_admin_witness :
    isAdminIn [alice, dana] "alice-id" = false ∧
    (adminListUsers (some "alice-id") [alice, dana]).status = 403 ∧
    (adminListUsers (some "alice-id") [alice, dana]).rows = [] := by
  have h := admin_listing_denies_non_admin [alice, dana] "alice-id" (by decide)
  exact ⟨by decide, h.1, h.2.1⟩

end VideoSaaS
